import Mathlib

/-!
Verification development for the Bubble AI agent execution core.

The definitions below are a shallow embedding of the TypeScript sources:
  * the autonomous agent loop of src/unnamed/part_000 (runAutonomousAgent,
    generateContentStreamWithRetry, isGoogleModel),
  * src/services/externalSearchService.ts (shouldUseExternalSearch,
    runWebSearch, runDuckDuckGoFallback),
  * the session guard of src/components/settings/MemoryDashboard.tsx
    (handleSendMessage safety timeout).

External effects (the streaming provider, web fetches, the canvas agent,
the memory store, the abort signal) are modelled as oracle environments;
all repository-side control flow is translated statement by statement.
-/

/-! ## String helpers mirroring the JavaScript string primitives used by the source -/

/-- Splits a character list at the first occurrence of the pattern `pat`,
returning the segment before the occurrence and the remainder after it.
Mirrors JavaScript substring search (String.prototype.indexOf). -/
def splitAtFirst (pat : List Char) : List Char → Option (List Char × List Char)
  | [] => if List.isPrefixOf pat ([] : List Char) then some ([], []) else none
  | c :: cs =>
    if List.isPrefixOf pat (c :: cs) then some ([], (c :: cs).drop pat.length)
    else
      match splitAtFirst pat cs with
      | some (b, a) => some (c :: b, a)
      | none => none

/-- JavaScript String.prototype.includes. -/
def strContains (s pat : String) : Bool :=
  (splitAtFirst pat.toList s.toList).isSome

/-- JavaScript String.prototype.startsWith. -/
def strStartsWith (s pat : String) : Bool :=
  List.isPrefixOf pat.toList s.toList

/-- ASCII lower-casing of one character (the model names and keywords the
source lowercases are ASCII). -/
def lowerChar (c : Char) : Char :=
  if 'A' ≤ c ∧ c ≤ 'Z' then Char.ofNat (c.toNat + 32) else c

/-- JavaScript String.prototype.toLowerCase restricted to ASCII. -/
def strToLower (s : String) : String :=
  (s.toList.map lowerChar).asString

/-- Whitespace characters removed by JavaScript String.prototype.trim. -/
def jsTrimWs (c : Char) : Bool :=
  c = ' ' || c = '\t' || c = '\n' || c = '\r' || c = Char.ofNat 11 || c = Char.ofNat 12

/-- JavaScript String.prototype.trim. -/
def strTrim (s : String) : String :=
  ((((s.toList.dropWhile jsTrimWs).reverse).dropWhile jsTrimWs).reverse).asString

/-- The JavaScript idiom `a || d` for strings (empty string is falsy),
applied to a possibly-undefined string. -/
def jsOrStr (o : Option String) (d : String) : String :=
  match o with
  | some s => if s = "" then d else s
  | none => d

/-- Truthiness of a possibly-undefined string in JavaScript. -/
def jsTruthyStr (o : Option String) : Bool :=
  match o with
  | some s => s ≠ ""
  | none => false

/-! ## externalSearchService.ts : shouldUseExternalSearch -/

/-- The keyword list of shouldUseExternalSearch
(src/services/externalSearchService.ts lines 19-32). -/
def searchKeywords : List String :=
  ["search online", "search the web", "look this up", "browse",
   "check internet", "latest", "today", "news", "price",
   "who is", "what is", "when did"]

/-- src/services/externalSearchService.ts lines 14-36: decides whether the
external search pipeline runs. -/
def shouldUseExternalSearch (userMessage : String) (modelSupportsSearch hasSearchTag : Bool) : Bool :=
  if modelSupportsSearch && !hasSearchTag then false
  else
    let lower := strToLower userMessage
    let keywordHit := searchKeywords.any (fun kw => strContains lower kw)
    keywordHit || hasSearchTag

/-! ## part_000 : isGoogleModel -/

/-- src/unnamed/part_000 lines 26-30: classifies a model string as native
(Google) or OpenRouter-compatible.  An empty string is falsy in JavaScript,
hence native by default. -/
def isGoogleModel (model : String) : Bool :=
  if model = "" then true
  else
    let lower := strToLower model
    strStartsWith lower "gemini" || strStartsWith lower "veo" || strContains lower "google"

/-! ## Inline tag matching

The loop scans the accumulated text with regular expressions of the shape
/<TAG>([Ss]*?)<\/TAG>/ : a lazy capture between a literal opener and the
first literal closer after it.  `firstTagMatch` models `String.match`
(first match, capture group 1); `tagMatchAll` models `String.matchAll` with
the global flag (scanning resumes after each full match). -/

/-- First capture of the lazy pair regex: the text between the first
occurrence of `opn` and the first occurrence of `cls` after it. -/
def firstTagMatch (opn cls s : String) : Option String :=
  match splitAtFirst opn.toList s.toList with
  | none => none
  | some (_, rest) =>
    match splitAtFirst cls.toList rest with
    | none => none
    | some (cap, _) => some cap.asString

/-- Worker for `tagMatchAll`; the fuel bounds the number of matches. -/
def tagMatchAllGo (opn cls : List Char) : Nat → List Char → List String
  | 0, _ => []
  | fuel + 1, s =>
    match splitAtFirst opn s with
    | none => []
    | some (_, rest) =>
      match splitAtFirst cls rest with
      | none => []
      | some (cap, rest2) => cap.asString :: tagMatchAllGo opn cls fuel rest2

/-- All captures of the global lazy pair regex. -/
def tagMatchAll (opn cls s : String) : List String :=
  tagMatchAllGo opn.toList cls.toList (s.toList.length + 1) s.toList

/-- JavaScript truthiness of `m && m[1]` for a regex match: the match
exists and its first capture group is a nonempty string. -/
def captureNonempty (o : Option String) : Bool :=
  match o with
  | some c => c ≠ ""
  | none => false

/-! ## JSON.parse validity (ECMAScript builtin used at part_000 line 307)

`JSON.parse` is a platform builtin, so it is embedded as a small
recursive-descent validity checker for JSON texts.  It is slightly lenient
about leading zeros in numbers; the development only relies on the empty
string being rejected (a JSON text must contain a value) and on ordinary
object texts being accepted. -/

def lbraceChar : Char := Char.ofNat 123

def rbraceChar : Char := Char.ofNat 125

/-- JSON insignificant whitespace. -/
def jsonWs (c : Char) : Bool :=
  c = ' ' || c = '\t' || c = '\n' || c = '\r'

/-- At least one decimal digit; returns the remainder. -/
def parseDigits : List Char → Option (List Char)
  | [] => none
  | c :: rest => if c.isDigit then some (rest.dropWhile Char.isDigit) else none

/-- Optional fractional part. -/
def parseFrac : List Char → Option (List Char)
  | '.' :: rest => parseDigits rest
  | cs => some cs

/-- Optional exponent part. -/
def parseExp : List Char → Option (List Char)
  | 'e' :: rest =>
    (match rest with
     | '+' :: r => parseDigits r
     | '-' :: r => parseDigits r
     | r => parseDigits r)
  | 'E' :: rest =>
    (match rest with
     | '+' :: r => parseDigits r
     | '-' :: r => parseDigits r
     | r => parseDigits r)
  | cs => some cs

/-- A JSON number. -/
def parseNumber (cs : List Char) : Option (List Char) :=
  let cs1 := match cs with
    | '-' :: r => r
    | r => r
  match parseDigits cs1 with
  | none => none
  | some r1 =>
    match parseFrac r1 with
    | none => none
    | some r2 => parseExp r2

/-- Body of a JSON string after the opening quote; a backslash escapes the
next character. -/
def parseJStringBody : Nat → List Char → Option (List Char)
  | 0, _ => none
  | _ + 1, [] => none
  | fuel + 1, c :: rest =>
    if c = '"' then some rest
    else if c = '\\' then
      match rest with
      | [] => none
      | _ :: rest2 => parseJStringBody fuel rest2
    else parseJStringBody fuel rest

/-- A JSON string literal. -/
def parseJString : List Char → Option (List Char)
  | '"' :: rest => parseJStringBody (rest.length + 1) rest
  | _ => none

/-- Expects the literal characters `lit` at the head of the input. -/
def stripLit (lit : String) (cs : List Char) : Option (List Char) :=
  if List.isPrefixOf lit.toList cs then some (cs.drop lit.toList.length) else none

mutual

/-- A JSON value; returns the unconsumed remainder. -/
def parseVal : Nat → List Char → Option (List Char)
  | 0, _ => none
  | fuel + 1, cs0 =>
    let cs := cs0.dropWhile jsonWs
    match cs with
    | [] => none
    | c :: rest =>
      if c = lbraceChar then
        let r2 := rest.dropWhile jsonWs
        match r2 with
        | d :: r3 => if d = rbraceChar then some r3 else parseMembers fuel r2
        | [] => none
      else if c = '[' then
        let r2 := rest.dropWhile jsonWs
        match r2 with
        | ']' :: r3 => some r3
        | _ => parseElems fuel r2
      else if c = '"' then parseJString cs
      else if c = 't' then stripLit "rue" rest
      else if c = 'f' then stripLit "alse" rest
      else if c = 'n' then stripLit "ull" rest
      else parseNumber cs

/-- Object members after the opening brace of a nonempty object. -/
def parseMembers : Nat → List Char → Option (List Char)
  | 0, _ => none
  | fuel + 1, cs =>
    match parseJString (cs.dropWhile jsonWs) with
    | none => none
    | some r =>
      match r.dropWhile jsonWs with
      | ':' :: r2 =>
        (match parseVal fuel r2 with
         | none => none
         | some r3 =>
           match r3.dropWhile jsonWs with
           | ',' :: r4 => parseMembers fuel r4
           | d :: r4 => if d = rbraceChar then some r4 else none
           | [] => none)
      | _ => none

/-- Array elements after the opening bracket of a nonempty array. -/
def parseElems : Nat → List Char → Option (List Char)
  | 0, _ => none
  | fuel + 1, cs =>
    match parseVal fuel cs with
    | none => none
    | some r =>
      match r.dropWhile jsonWs with
      | ',' :: r2 => parseElems fuel r2
      | ']' :: r2 => some r2
      | _ => none

end

/-- Whether `JSON.parse(s)` succeeds: a complete JSON value followed only by
whitespace.  `JSON.parse("")` throws, because an empty text holds no value. -/
def jsonParseOk (s : String) : Bool :=
  match parseVal (s.toList.length + 1) s.toList with
  | some r => (r.dropWhile jsonWs).isEmpty
  | none => false

/-! ## part_000 : generateContentStreamWithRetry (lines 54-96)

The outcome of each `ai.models.generateContentStream(params)` call is an
oracle indexed by the pass number of the retry loop (the loop makes exactly
one call per pass, and `continue` runs the `attempt++` update, so the pass
counter and `attempt` coincide). -/

/-- Classification of one provider call, following the error tests of
lines 69 and 81-83. -/
inductive CallOutcome
  | success
  | notFound
  | quota
  | other
deriving DecidableEq

/-- The backoff of line 86: `Math.pow(2, attempt) * 2000 + 1000`. -/
def backoffDelay (attempt : Nat) : Nat :=
  2 ^ attempt * 2000 + 1000

/-- Result of the retry ladder: whether a generator was obtained, which
error propagated otherwise (`none` with `ok = false` is the
"Max retries exceeded" throw of line 95), the waits slept, the model each
call used, in order. -/
structure RetryRun where
  ok : Bool
  thrown : Option CallOutcome
  delays : List Nat
  modelsTried : List String
deriving DecidableEq

/-- The `for (let attempt = 0; attempt <= retries; attempt++)` loop of
lines 65-94.  On `notFound`: if the model is already the fallback model the
error propagates (line 74), otherwise the model is swapped and the loop
continues.  On `quota` with `attempt < retries` the loop sleeps
`backoffDelay attempt` and retries; otherwise the error propagates. -/
def retryGo (oracle : Nat → CallOutcome) (retries : Nat) :
    Nat → Nat → String → List Nat → List String → RetryRun
  | 0, _, _, delays, tried => ⟨false, none, delays, tried⟩
  | fuel + 1, attempt, model, delays, tried =>
    match oracle attempt with
    | CallOutcome.success => ⟨true, none, delays, tried ++ [model]⟩
    | CallOutcome.notFound =>
      if model = "gemini-2.5-flash" then ⟨false, some CallOutcome.notFound, delays, tried ++ [model]⟩
      else retryGo oracle retries fuel (attempt + 1) "gemini-2.5-flash" delays (tried ++ [model])
    | CallOutcome.quota =>
      if attempt < retries then
        retryGo oracle retries fuel (attempt + 1) model (delays ++ [backoffDelay attempt]) (tried ++ [model])
      else ⟨false, some CallOutcome.quota, delays, tried ++ [model]⟩
    | CallOutcome.other => ⟨false, some CallOutcome.other, delays, tried ++ [model]⟩

/-- Lines 54-96: entry of generateContentStreamWithRetry.  Lines 60-63
default a falsy `params.model` to gemini-2.5-flash before the loop. -/
def generateContentStreamWithRetry (oracle : Nat → CallOutcome) (model0 : Option String)
    (retries : Nat) : RetryRun :=
  let model := match model0 with
    | none => "gemini-2.5-flash"
    | some s => if s = "" then "gemini-2.5-flash" else s
  retryGo oracle retries (retries + 1) 0 model [] []

/-- An oracle under which every call hits the quota limit. -/
def allQuota : Nat → CallOutcome := fun _ => CallOutcome.quota

/-! ## part_000 : model resolution before dispatch (lines 228-257)

`runAutonomousAgent` resolves the request's model after the instant-mode
early return: a missing/blank model defaults to gemini-2.5-flash, OpenRouter
models without a key force-fall back to the native default, and the
thinking-mode branches override the model and budget.  All of this happens
before the first provider call of the loop. -/

/-- Thinking mode of the request (src/types). -/
inductive TMode
  | instant
  | fast
  | think
  | deep
deriving DecidableEq

/-- The profile fields read by the resolution code. -/
structure ProfileData where
  openrouter_api_key : Option String
  preferred_deep_model : Option String
  role : Option String
deriving DecidableEq

/-- The resolved dispatch parameters. -/
structure ResolvedModel where
  model : String
  isNative : Bool
  thinkingBudget : Nat
deriving DecidableEq

/-- Lines 254-257: a positive thinking budget on a native model that is
neither a gemini-2.5 nor a gemini-3 family model switches the model to
gemini-2.5-flash (the isNative flag is not recomputed there). -/
def thinkingCompatAdjust (m : String) (n : Bool) (b : Nat) : ResolvedModel :=
  if b > 0 && n && !(strContains m "gemini-2.5") && !(strContains m "gemini-3") then
    ⟨"gemini-2.5-flash", n, b⟩
  else ⟨m, n, b⟩

/-- Lines 228-257 of runAutonomousAgent: model defaulting (228-230), native
classification (232), missing-OpenRouter-key fallback (235-239), and the
thinking-mode overrides (241-257). -/
def resolveModel (model0 : Option String) (thinkingMode : TMode) (profile : Option ProfileData) :
    ResolvedModel :=
  let model1 := match model0 with
    | none => "gemini-2.5-flash"
    | some s => if s = "" || strTrim s = "" then "gemini-2.5-flash" else s
  let isNative1 := isGoogleModel model1
  let keyMissing := !(jsTruthyStr (match profile with
    | some p => p.openrouter_api_key
    | none => none))
  let model2 := if !isNative1 && keyMissing then "gemini-2.5-flash" else model1
  let isNative2 := if !isNative1 && keyMissing then true else isNative1
  match thinkingMode with
  | TMode.deep =>
    let m := jsOrStr (match profile with
      | some p => p.preferred_deep_model
      | none => none) "gemini-3-pro-preview"
    thinkingCompatAdjust m (isGoogleModel m) 8192
  | TMode.think => thinkingCompatAdjust "gemini-2.5-flash" true 2048
  | _ => thinkingCompatAdjust model2 isNative2 0

/-- Whether the request's model string is missing, empty or whitespace-only
(the condition of line 228). -/
def emptyModelStr (model0 : Option String) : Bool :=
  match model0 with
  | none => true
  | some s => s = "" || strTrim s = ""

/-- A profile with an OpenRouter key and a non-Google preferred deep model. -/
def profC10 : ProfileData :=
  ⟨some "sk-or-key", some "anthropic/claude-3-opus", some "user"⟩

/-! ## externalSearchService.ts : runWebSearch with fallback chain

Network fetches are oracles: a fetch either fails outright (network error,
or the 8-second timeout aborting the request) or yields a response with an
`ok` flag, a status and a payload that `resp.json()` may fail to parse. -/

/-- A search result (externalSearchService.ts lines 4-9). -/
structure WebSearchResult where
  title : String
  url : String
  snippet : Option String
  content : Option String
deriving DecidableEq

/-- One raw entry of the primary provider's `results` array. -/
structure BubbleRaw where
  title : Option String
  url : String
  snippet : Option String
deriving DecidableEq

/-- Decoded payload of the primary provider. `results = none` models a
missing or non-array `results` field. -/
structure BubbleData where
  success : Bool
  results : Option (List BubbleRaw)
deriving DecidableEq

/-- One entry of the fallback provider's `RelatedTopics`. -/
structure DdgTopic where
  firstUrl : Option String
  text : Option String
deriving DecidableEq

/-- Decoded payload of the DuckDuckGo instant-answer endpoint. -/
structure DdgData where
  abstractUrl : Option String
  heading : Option String
  abstract : Option String
  relatedTopics : Option (List DdgTopic)
deriving DecidableEq

/-- An HTTP response whose body may fail to parse as JSON. -/
structure HttpResp (α : Type) where
  ok : Bool
  status : Nat
  payload : Option α
deriving DecidableEq

/-- Outcome of a fetch: hard failure (timeout/network), or a response. -/
inductive FetchOutcome (α : Type)
  | failure
  | response (r : HttpResp α)
deriving DecidableEq

/-- The two network calls a single runWebSearch invocation can make. -/
structure SearchNetEnv where
  primary : FetchOutcome BubbleData
  fallback : FetchOutcome DdgData
deriving DecidableEq

/-- Lines 41-75 (runBubbleSearch): `none` is a thrown error (the catch at
line 71 rethrows to trigger the fallback); non-ok statuses throw, malformed
payloads throw, and a payload with `success` false or a non-array `results`
yields an empty list without throwing. -/
def runBubbleSearchE (net : SearchNetEnv) : Option (List WebSearchResult) :=
  match net.primary with
  | FetchOutcome.failure => none
  | FetchOutcome.response r =>
    if !r.ok then none
    else
      match r.payload with
      | none => none
      | some data =>
        match data.success, data.results with
        | true, some rs =>
          some (rs.map (fun x =>
            ⟨jsOrStr x.title "Untitled Page", x.url,
             some (jsOrStr x.snippet "No description available."), x.snippet⟩))
        | _, _ => some []

/-- The text before the first " - " of a topic's Text
(`t.Text.split(' - ')[0]`). -/
def splitDashFirst (s : String) : String :=
  match splitAtFirst " - ".toList s.toList with
  | some (b, _) => b.asString
  | none => s

/-- Lines 81-116 body of runDuckDuckGoFallback before its catch: `none`
models a thrown error (fetch rejection or `resp.json()` failure); a non-ok
response returns an empty list without throwing. -/
def runDuckDuckGoFallbackBody (net : SearchNetEnv) : Option (List WebSearchResult) :=
  match net.fallback with
  | FetchOutcome.failure => none
  | FetchOutcome.response r =>
    if !r.ok then some []
    else
      match r.payload with
      | none => none
      | some d =>
        let l1 :=
          if jsTruthyStr d.abstractUrl && jsTruthyStr d.heading then
            [(⟨(d.heading).getD "", (d.abstractUrl).getD "",
               some (jsOrStr d.abstract "Result from DuckDuckGo"), d.abstract⟩ : WebSearchResult)]
          else []
        let l2 :=
          match d.relatedTopics with
          | some ts =>
            (ts.take 5).filterMap (fun t =>
              if jsTruthyStr t.firstUrl && jsTruthyStr t.text then
                some (⟨jsOrStr (some (splitDashFirst ((t.text).getD ""))) "Related Result",
                       (t.firstUrl).getD "", t.text, t.text⟩ : WebSearchResult)
              else none)
          | none => []
        some (l1 ++ l2)

/-- Lines 81-116 with the catch of lines 112-115: the fallback never
throws; on any internal failure it returns an empty result list. -/
def runDuckDuckGoFallback (net : SearchNetEnv) : List WebSearchResult :=
  (runDuckDuckGoFallbackBody net).getD []

/-- Lines 121-128 (runWebSearch), instrumented with whether the fallback
provider was called: the primary result is returned when the primary call
does not throw; any thrown primary error triggers the fallback. -/
def runWebSearchT (net : SearchNetEnv) : List WebSearchResult × Bool :=
  match runBubbleSearchE net with
  | some rs => (rs, false)
  | none => (runDuckDuckGoFallback net, true)

/-- Lines 121-128: the unified search entry point. -/
def runWebSearch (net : SearchNetEnv) : List WebSearchResult :=
  (runWebSearchT net).1

/-- Whether the fallback provider also fails (network failure, non-2xx
response, or malformed payload). -/
def fallbackFailed (net : SearchNetEnv) : Bool :=
  match net.fallback with
  | FetchOutcome.failure => true
  | FetchOutcome.response r => !r.ok || (r.payload).isNone

/-- A network in which both providers fail outright. -/
def netBothFail : SearchNetEnv :=
  ⟨FetchOutcome.failure, FetchOutcome.failure⟩

/-! ## MemoryDashboard.tsx : the session guard's safety timeout

handleSendMessage installs `setTimeout(..., 300000)` (lines 651-663).  The
timer callback aborts and reports a timeout error only if the send is still
in flight and not already aborted.  The timer is cleared by the FIRST
streamed chunk (onStreamChunk, line 777) and by completion (the finally
block, line 912); handleStopGeneration (lines 604-614) aborts the signal and
clears the in-flight flag without clearing the timer.  A send is modelled by
the time-ordered guard events occurring before the timer deadline. -/

/-- The delay of the safety timeout installed at line 663. -/
def safetyTimeoutDelayMs : Nat := 300000

/-- Guard-relevant happenings during one send, with their times in ms. -/
inductive SendEv
  | chunk (t : Nat)
  | settle (t : Nat)
  | stop (t : Nat)
deriving DecidableEq

/-- The time of a guard event. -/
def sendEvTime : SendEv → Nat
  | SendEv.chunk t => t
  | SendEv.settle t => t
  | SendEv.stop t => t

/-- The guard's mutable state: whether the safety timer is still armed,
whether the abort signal fired, whether the send is still in flight, and
whether a forced timeout cancellation (with its error toast) happened. -/
structure GuardState where
  timerArmed : Bool
  aborted : Bool
  sending : Bool
  timedOut : Bool
deriving DecidableEq

/-- State at the start of handleSendMessage (lines 641-663). -/
def guardInit : GuardState :=
  ⟨true, false, true, false⟩

/-- Effect of one guard event: a streamed chunk clears the timer unless the
signal is already aborted (lines 775-777); settlement clears the timer and
the in-flight flag (lines 911-913); a user stop aborts and clears the
in-flight flag (lines 604-614). -/
def guardStep (s : GuardState) (e : SendEv) : GuardState :=
  match e with
  | SendEv.chunk _ => if s.aborted then s else { s with timerArmed := false }
  | SendEv.settle _ => { s with timerArmed := false, sending := false }
  | SendEv.stop _ => { s with aborted := true, sending := false }

/-- The timer callback of lines 651-663: if the send is still in flight and
not aborted, it aborts the controller and reports the timeout error. -/
def safetyTimerFire (s : GuardState) : GuardState :=
  if s.sending && !s.aborted then
    { s with aborted := true, sending := false, timedOut := true }
  else s

/-- Runs the guard over one send: all events before the 300000ms deadline
are applied, then the timer fires if still armed. -/
def runSendGuard (evs : List SendEv) : GuardState :=
  let s := (evs.filter (fun e => sendEvTime e < safetyTimeoutDelayMs)).foldl guardStep guardInit
  if s.timerArmed then safetyTimerFire s else s

/-- Whether a send trace contains a settlement event (the provider stack
completing). -/
def hasSettle (evs : List SendEv) : Bool :=
  evs.any (fun e => match e with
    | SendEv.settle _ => true
    | _ => false)

/-! ## part_000 : the runAutonomousAgent action loop (lines 164-638)

The embedding covers the non-instant, native-provider dispatch path of the
loop (lines 385-627) together with the surrounding try/catch: the
OpenRouter branch differs only inside the streaming call and shares all tag
handling.  External effects are oracles in `LoopEnv`:

  * `gen n` — the chunk texts streamed by the n-th provider call of this
    request (`none` models the call throwing after its internal retries);
    the generation text is left nondeterministic, so every possible model
    output is covered;
  * `searchFn q` — the result list of `runWebSearch q 15` (a total
    function, as proved for the search service above);
  * `canvasFn p` — the result of `runCanvasAgent` on prompt `p`, collapsed
    to an opaque value returned as-is (line 607-608);
  * `debugDump` — the JSON.stringify rendering inside the admin debug
    block (line 281);
  * `abortAt` — the abort signal: it is (and stays) signalled once the
    stream-delta clock reaches this threshold.  The clock advances by one
    per delivered delta, so `abortAt = some 1` is a signal firing right
    after the first streamed delta.

Grounding-metadata accumulation (lines 462-469, a payload echoed into the
returned message) and the systemInstruction text are omitted: neither
affects control flow or the returned text. -/

/-- The routing actions (services/semanticRouter RouterAction). -/
inductive RouterAction
  | SIMPLE
  | DEEP_SEARCH
  | IMAGE
  | PROJECT
  | CANVAS
  | STUDY
deriving DecidableEq

/-- Observable events of one agent run, stamped with the delta clock. -/
inductive AgentEv
  | genCall (clock : Nat)
  | delta (clock : Nat) (text : String)
  | searchCall (clock : Nat) (query : String)
  | canvasCall (clock : Nat) (prompt : String)
deriving DecidableEq

/-- The loop's mutable state (lines 259, 269, 385-389). -/
structure LoopState where
  loopCount : Nat
  clock : Nat
  finalText : String
  fallbackCtx : String
  externalCtx : String
  curPrompt : String
  curAction : RouterAction
  routingParams : Option String
  events : List AgentEv
deriving DecidableEq

/-- The oracle environment of one request. -/
structure LoopEnv where
  gen : Nat → Option (List String)
  searchFn : String → List WebSearchResult
  canvasFn : String → String
  debugDump : List WebSearchResult → String
  abortAt : Option Nat

/-- The request parameters the loop reads. -/
structure AgentReq where
  prompt : String
  memFetch : Option String
  modelSupportsSearch : Bool
  adminRole : Bool
  initialAction : RouterAction

/-- Whether `signal?.aborted` reads true at the given clock. -/
def signalAborted (abortAt : Option Nat) (clock : Nat) : Bool :=
  match abortAt with
  | some t => if t ≤ clock then true else false
  | none => false

/-- The mid-stream canvas break of lines 471-477. -/
def canvasStop (s : String) : Bool :=
  strContains s "</CANVAS_TRIGGER>" || strContains s "</CANVASTRIGGER>" ||
    strContains s "</CANVAS>"

/-- Result of streaming one provider call. -/
structure StreamOut where
  generated : String
  st : LoopState
deriving DecidableEq

/-- The `for await` streaming loop of lines 455-479: each chunk is dropped
once the signal aborted, skipped when empty, and otherwise appended to both
the per-iteration text and the accumulated response, emitted as a delta,
and checked for an inline canvas closer. -/
def streamRun (abortAt : Option Nat) : List String → String → LoopState → StreamOut
  | [], g, st => ⟨g, st⟩
  | chunk :: rest, g, st =>
    if signalAborted abortAt st.clock then ⟨g, st⟩
    else if chunk = "" then streamRun abortAt rest g st
    else
      let g2 := g ++ chunk
      let st2 := { st with finalText := st.finalText ++ chunk,
                           events := st.events ++ [AgentEv.delta st.clock chunk],
                           clock := st.clock + 1 }
      if canvasStop g2 then ⟨g2, st2⟩ else streamRun abortAt rest g2 st2

/-- Line 551: `aggregatedContext += res.title + ": " + res.snippet + "\n"`
(an undefined snippet renders as the string "undefined"). -/
def aggregateResults (rs : List WebSearchResult) : String :=
  rs.foldl (fun a r => a ++ r.title ++ ": " ++ (r.snippet).getD "undefined" ++ "\n") ""

/-- The synthesis prompt of line 553 (search produced results). -/
def synthesisWithResults (origPrompt q ctx : String) : String :=
  "USER ORIGINALLY ASKED: " ++ origPrompt ++
  "\n\nI have performed the following searches based on my previous thought process:\n- " ++ q ++
  "\n\nSEARCH CONTEXT:\n" ++ ctx ++
  "\n\nINSTRUCTIONS: Synthesize a comprehensive answer to the user's original query using this search data. Cite sources using [1], [2] format. Do NOT repeat the <SEARCH> tags."

/-- The fallback context of line 558 (reactive search found nothing). -/
def noResultsFallbackCtx (q : String) : String :=
  "[System: Search executed for \"" ++ q ++ "\" but returned no results. Continue with internal knowledge.]"

/-- The synthesis prompt of line 559 (search produced no results). -/
def synthesisNoResults (origPrompt q : String) : String :=
  "USER ORIGINALLY ASKED: " ++ origPrompt ++
  "\n\nI attempted to search for: \"" ++ q ++
  "\" but found no results.\n\nINSTRUCTIONS: Continue answering the user's request using your internal knowledge. Do NOT repeat the <SEARCH> tags."

/-- Lines 572-575: the canvas tag in its four accepted spelling variants;
`||` picks the first variant whose regex matches at all. -/
def canvasMatchOf (g : String) : Option String :=
  (firstTagMatch "<CANVAS_TRIGGER>" "</CANVAS_TRIGGER>" g).orElse (fun _ =>
  (firstTagMatch "<CANVAS_TRIGGER>" "</CANVASTRIGGER>" g).orElse (fun _ =>
  (firstTagMatch "<CANVAS>" "</CANVAS>" g).orElse (fun _ =>
  firstTagMatch "<CANVASTRIGGER>" "</CANVASTRIGGER>" g)))

/-- How the try block of one request resolves. -/
inductive AgentOutcome
  | reply (text : String)
  | canvasHandoff (result : String)
  | errorReply
deriving DecidableEq

/-- Result of one loop iteration: continue looping, or return. -/
inductive IterStep
  | next (st : LoopState)
  | halt (st : LoopState) (out : AgentOutcome)
deriving DecidableEq

/-- The state carried out of an iteration step. -/
def IterStep.state : IterStep → LoopState
  | IterStep.next st => st
  | IterStep.halt st _ => st

/-- Records the provider call of an iteration. -/
def pushGenEv (st : LoopState) : LoopState :=
  { st with events := st.events ++ [AgentEv.genCall st.clock] }

/-- Lines 568-622: the priority-ordered tag rules evaluated after the
reactive-search block, given the iteration's generated text `g` and the
number of search-tag pairs found in it. -/
def runTagPhase (env : LoopEnv) (st : LoopState) (g : String) (nSearch : Nat) : IterStep :=
  let deepM := firstTagMatch "<DEEP>" "</DEEP>" g
  let imageM := firstTagMatch "<IMAGE>" "</IMAGE>" g
  let projectM := firstTagMatch "<PROJECT>" "</PROJECT>" g
  let canvasM := canvasMatchOf g
  let studyM := firstTagMatch "<STUDY>" "</STUDY>" g
  if captureNonempty deepM then
    IterStep.next { st with curAction := RouterAction.DEEP_SEARCH, curPrompt := deepM.getD "" }
  else if nSearch = 1 ∧ st.fallbackCtx = "" then
    IterStep.halt st (AgentOutcome.reply st.finalText)
  else if captureNonempty imageM then
    IterStep.next { st with curAction := RouterAction.IMAGE, curPrompt := imageM.getD "",
                            routingParams := some (imageM.getD "") }
  else if captureNonempty projectM then
    IterStep.next { st with curAction := RouterAction.PROJECT, curPrompt := projectM.getD "" }
  else if captureNonempty canvasM then
    let p := strTrim (canvasM.getD "")
    let st1 := { st with finalText := "", curAction := RouterAction.CANVAS, curPrompt := p,
                         events := st.events ++ [AgentEv.canvasCall st.clock p] }
    IterStep.halt st1 (AgentOutcome.canvasHandoff (env.canvasFn p))
  else if captureNonempty studyM then
    IterStep.next { st with curAction := RouterAction.STUDY, curPrompt := studyM.getD "" }
  else
    let st2 := if strTrim st.finalText = "" ∧ st.fallbackCtx ≠ ""
      then { st with finalText := st.fallbackCtx } else st
    IterStep.halt st2 (AgentOutcome.reply st2.finalText)

/-- Lines 542-566: the reactive search escalation.  When at least one
search tag with a nonempty trimmed query occurred, the first query is
re-checked (with the tag flag set) and searched; both the results and the
no-results case set the fallback context and a synthesis prompt and
continue the loop.  Otherwise control falls to the tag rules. -/
def runIterTags (env : LoopEnv) (req : AgentReq) (st : LoopState) (g : String)
    (caps : List String) : IterStep :=
  let queries := (caps.map strTrim).filter (fun q => q ≠ "")
  match caps, queries with
  | _ :: _, q :: _ =>
    if shouldUseExternalSearch q req.modelSupportsSearch true then
      let st1 := { st with events := st.events ++ [AgentEv.searchCall st.clock q] }
      let rs := env.searchFn q
      match rs with
      | _ :: _ =>
        let agg := aggregateResults rs
        IterStep.next { st1 with fallbackCtx := agg,
                                 curPrompt := synthesisWithResults req.prompt q agg,
                                 curAction := RouterAction.SIMPLE }
      | [] =>
        IterStep.next { st1 with fallbackCtx := noResultsFallbackCtx q,
                                 curPrompt := synthesisNoResults req.prompt q,
                                 curAction := RouterAction.SIMPLE }
    else runTagPhase env st g caps.length
  | _, _ => runTagPhase env st g caps.length

/-- One pass of the SIMPLE/default switch branch (lines 397-623): issue the
provider call (a throw — after the dispatcher's internal retries — is
re-raised at lines 538-540 and ends the request in the outer catch), stream
its chunks, then run reactive search and the tag rules. -/
def runIter (env : LoopEnv) (req : AgentReq) (st0 : LoopState) (callIdx : Nat) : IterStep :=
  let stc := pushGenEv st0
  match env.gen callIdx with
  | none => IterStep.halt stc AgentOutcome.errorReply
  | some chunks =>
    let so := streamRun env.abortAt chunks "" stc
    runIterTags env req so.st so.generated (tagMatchAll "<SEARCH>" "</SEARCH>" so.generated)

/-- Line 389. -/
def MAX_LOOPS : Nat := 6

/-- The while loop of lines 391-627, encoded with the remaining iteration
budget as fuel (the source counts `loopCount` up from 0 while it is below
MAX_LOOPS and increments it by one at the top of each pass, line 393).
Fuel 0 is the loop condition failing; the abort check of line 392 breaks to
the post-loop return of line 627 with the accumulated text as a normal
message. -/
def loopGo (env : LoopEnv) (req : AgentReq) : Nat → LoopState → Nat → LoopState × AgentOutcome
  | 0, st, _ => (st, AgentOutcome.reply st.finalText)
  | fuel + 1, st, callIdx =>
    if signalAborted env.abortAt st.clock then (st, AgentOutcome.reply st.finalText)
    else
      match runIter env req { st with loopCount := st.loopCount + 1 } callIdx with
      | IterStep.next st2 => loopGo env req fuel st2 (callIdx + 1)
      | IterStep.halt st2 out => (st2, out)

/-- The state at line 385-388, before the loop. -/
def initState (req : AgentReq) : LoopState :=
  ⟨0, 0, "", "", "", req.prompt, req.initialAction, none, []⟩

/-- The per-result block of the external search context template
(lines 294-299). -/
def resultBlock (i : Nat) (p : WebSearchResult) : String :=
  "\n--- RESULT " ++ toString (i + 1) ++ " ---\nTitle: " ++ p.title ++
  "\nURL: " ++ p.url ++ "\nContent: " ++
  jsOrStr p.content (jsOrStr p.snippet "(No content available)") ++ "\n"

/-- The external search context template of lines 291-301. -/
def externalSearchBlock (q : String) (rs : List WebSearchResult) : String :=
  "\n=== EXTERNAL WEB SEARCH RESULTS ===\nQuery: \"" ++ q ++ "\"\n" ++
  String.intercalate "\n" (rs.enum.map (fun ip => resultBlock ip.1 ip.2)) ++
  "\n===================================\n"

/-- The admin debug block of line 281. -/
def adminDebugBlock (q : String) (rs : List WebSearchResult) (dump : String) : String :=
  "\n\n```json\n[ADMIN DEBUG: SEARCH]\nQuery: \"" ++ q ++ "\"\nResults: " ++
  toString rs.length ++ "\nData: " ++ dump ++ "\n```\n\n"

/-- The pre-emptive search block of lines 273-305: when the heuristic
triggers on the raw prompt, a literal search tag is streamed and appended
to the accumulated text, the web search runs, admins get a debug block, and
the external search context is set from the results. -/
def preEmptiveSearch (env : LoopEnv) (req : AgentReq) (st : LoopState) : LoopState :=
  if shouldUseExternalSearch req.prompt req.modelSupportsSearch false then
    let tag := "<SEARCH>" ++ req.prompt ++ "</SEARCH>"
    let st1 := { st with finalText := st.finalText ++ tag,
                         events := st.events ++ [AgentEv.searchCall st.clock req.prompt] }
    let rs := env.searchFn req.prompt
    let st2 := if req.adminRole then
        { st1 with finalText := st1.finalText ++ adminDebugBlock req.prompt rs (env.debugDump rs) }
      else st1
    match rs with
    | _ :: _ => { st2 with externalCtx := externalSearchBlock req.prompt rs }
    | [] => { st2 with externalCtx :=
        "[System: Search executed for \"" ++ req.prompt ++ "\" but returned no results. Rely on internal knowledge.]" }
  else st

/-- Lines 167-179: the memory context string is the stringified memory
context, or the empty string when the upstream fetch failed. -/
def memoryContextStringOf (req : AgentReq) : String :=
  match req.memFetch with
  | some s => s
  | none => ""

/-- A full run (one request). -/
structure AgentRun where
  state : LoopState
  outcome : AgentOutcome
deriving DecidableEq

/-- runAutonomousAgent (lines 164-638) on the native, non-instant path:
memory fetch (167-179), pre-emptive search (273-305), `JSON.parse` of the
memory context string (line 307, inside the try — a parse failure lands in
the outer catch of lines 629-637 and produces the user-facing error
message), then the action loop. -/
def runAutonomousAgent (env : LoopEnv) (req : AgentReq) : AgentRun :=
  let st := preEmptiveSearch env req (initState req)
  if jsonParseOk (memoryContextStringOf req) then
    let r := loopGo env req MAX_LOOPS st 1
    ⟨r.1, r.2⟩
  else ⟨st, AgentOutcome.errorReply⟩

/-- Number of provider (generation) calls recorded in a trace. -/
def genCallCount (evs : List AgentEv) : Nat :=
  (evs.filter (fun e => match e with
    | AgentEv.genCall _ => true
    | _ => false)).length

/-- Number of web-search calls recorded at or after clock `t`. -/
def searchCallsAtOrAfter (t : Nat) (evs : List AgentEv) : Nat :=
  (evs.filter (fun e => match e with
    | AgentEv.searchCall c _ => t ≤ c
    | _ => false)).length

/-- Number of canvas handoffs recorded in a trace. -/
def canvasCallCount (evs : List AgentEv) : Nat :=
  (evs.filter (fun e => match e with
    | AgentEv.canvasCall _ _ => true
    | _ => false)).length

/-- The delta texts of a trace, in order. -/
def deltaTexts (evs : List AgentEv) : List String :=
  evs.filterMap (fun e => match e with
    | AgentEv.delta _ t => some t
    | _ => none)

/-! ## C3 : memory-fetch failure -/

/-- A request whose upstream memory fetch threw (lines 167-179 leave
`memoryContextString = ""`), with a prompt that does not trigger the
pre-emptive search heuristic. -/
def reqMemFail : AgentReq :=
  ⟨"hello there", none, false, false, RouterAction.SIMPLE⟩

/-! ## C5 : the single-search-tag rule -/

/-- A plain request: memory context parses, non-search-capable model,
ordinary user, prompt without search keywords. -/
def reqPlain (p : String) : AgentReq :=
  ⟨p, some "\x7b\x7d", false, false, RouterAction.SIMPLE⟩

/-- Environment whose first generation emits exactly one search tag with a
nonempty query and nothing else; the web search finds no results. -/
def envC5 : LoopEnv :=
  ⟨fun n => if n = 1 then some ["<SEARCH>latest news</SEARCH>"] else some [],
   fun _ => [], fun _ => "", fun _ => "", none⟩

/-- The state entering an iteration body (line 393 increments the loop
counter at the top of the pass). -/
def incLoop (st : LoopState) : LoopState :=
  { st with loopCount := st.loopCount + 1 }

/-- The streaming step of an iteration entered in state `st` whose provider
call yields `chunks`. -/
def iterStream (env : LoopEnv) (st : LoopState) (chunks : List String) : StreamOut :=
  streamRun env.abortAt chunks "" (pushGenEv (incLoop st))

/-- Environment whose first generation emits a single blank search tag. -/
def envW5 : LoopEnv :=
  ⟨fun _ => some ["<SEARCH>   </SEARCH>"], fun _ => [], fun _ => "", fun _ => "", none⟩

/-- Environment whose first generation emits a canvas tag; the canvas
collaborator's result is observable. -/
def envW6 : LoopEnv :=
  ⟨fun _ => some ["Draft text<CANVAS>build a todo app</CANVAS>"], fun _ => [],
   fun p => "CANVAS RESULT: " ++ p, fun _ => "", none⟩

/-! ## C2 : cancellation -/

/-- Environment in which the signal fires right after the first streamed
delta (abortAt = 1), and that delta carries a search tag. -/
def envC2 : LoopEnv :=
  ⟨fun _ => some ["<SEARCH>latest news</SEARCH>"], fun _ => [], fun _ => "",
   fun _ => "", some 1⟩

/-- The first chunk with nonempty text in a stream (empty chunks are
skipped by the `if (chunk.text)` guard of line 457). -/
def firstNonempty : List String → String
  | [] => ""
  | c :: cs => if c = "" then firstNonempty cs else c

/-- Environment streaming a plain text delta with the signal firing right
after it. -/
def envW2 : LoopEnv :=
  ⟨fun _ => some ["Hello there"], fun _ => [], fun _ => "", fun _ => "", some 1⟩

/-! ## Theorems -/

/-- C9: a reactive re-check performed with the search-tag flag set is always
accepted: shouldUseExternalSearch(message, modelSupportsSearch, true) returns
true for every message and every capability flag. -/
theorem tag_forced_search_always_accepted (msg : String) (m : Bool) :
    shouldUseExternalSearch msg m true = true := by
  simp [shouldUseExternalSearch]

/-- C4 counterexample: the claim asserts the backoff formula yields delays
5000ms, 7000ms, 9000ms for attempts 0, 1, 2.  On an all-quota run with the
default 3 retries the slept delays are 3000ms, 5000ms, 9000ms — the formula
2^attempt*2000+1000 gives 3000 at attempt 0, so the claimed schedule is
false. -/
theorem quota_delays_claim_false :
    (generateContentStreamWithRetry allQuota (some "gemini-2.5-flash") 3).delays
        = [3000, 5000, 9000] ∧
    ¬ ((generateContentStreamWithRetry allQuota (some "gemini-2.5-flash") 3).delays
        = [5000, 7000, 9000]) := by
  constructor
  · rfl
  · decide

/-- C4 amended: on quota errors the call is retried up to 3 times with the
delays given by the formula 2^attempt*2000+1000, i.e. 3000ms, 5000ms and
9000ms for attempts 0, 1, 2, and a 4th quota error, with no attempts
remaining, propagates as a terminal error. -/
theorem quota_retry_schedule (oracle : Nat → CallOutcome) (model0 : Option String)
    (h : ∀ i, i ≤ 3 → oracle i = CallOutcome.quota) :
    (generateContentStreamWithRetry oracle model0 3).delays
        = [backoffDelay 0, backoffDelay 1, backoffDelay 2] ∧
    (generateContentStreamWithRetry oracle model0 3).delays = [3000, 5000, 9000] ∧
    (generateContentStreamWithRetry oracle model0 3).ok = false ∧
    (generateContentStreamWithRetry oracle model0 3).thrown = some CallOutcome.quota := by
  have h0 := h 0 (by omega)
  have h1 := h 1 (by omega)
  have h2 := h 2 (by omega)
  have h3 := h 3 (by omega)
  simp [generateContentStreamWithRetry, retryGo, h0, h1, h2, h3, backoffDelay]

/-- C4 witness: the amended schedule at the all-quota oracle. -/
theorem quota_retry_schedule_witness :
    (generateContentStreamWithRetry allQuota (some "gemini-2.5-flash") 3).delays
        = [3000, 5000, 9000] ∧
    (generateContentStreamWithRetry allQuota (some "gemini-2.5-flash") 3).thrown
        = some CallOutcome.quota :=
  have h := quota_retry_schedule allQuota (some "gemini-2.5-flash") (fun _ _ => rfl)
  ⟨h.2.1, h.2.2.2⟩

/-- C10 counterexample: with a missing model string but thinkingMode 'deep'
and a preferred deep model 'anthropic/claude-3-opus', the request is
dispatched as non-native on that model — the claim that an empty model
always yields a native request on gemini-2.5-flash is false. -/
theorem empty_model_default_claim_false :
    (resolveModel (some "") TMode.deep (some profC10)).isNative = false ∧
    ¬ ((resolveModel (some "") TMode.deep (some profC10)).model = "gemini-2.5-flash") ∧
    emptyModelStr (some "") = true := by
  refine ⟨?_, ?_, rfl⟩
  · rfl
  · decide

/-- C10 amended: for thinkingMode 'fast' or 'think' (no deep-mode model
override), a missing, empty or whitespace-only model string is classified
native and substituted by the default 'gemini-2.5-flash' before any
provider call. -/
theorem empty_model_defaults_native (model0 : Option String) (tm : TMode)
    (profile : Option ProfileData)
    (hm : emptyModelStr model0 = true)
    (htm : tm = TMode.fast ∨ tm = TMode.think) :
    (resolveModel model0 tm profile).model = "gemini-2.5-flash" ∧
    (resolveModel model0 tm profile).isNative = true := by
  have hflash : isGoogleModel "gemini-2.5-flash" = true := by decide
  have hc25 : strContains "gemini-2.5-flash" "gemini-2.5" = true := by decide
  rcases htm with h | h <;> subst h <;>
    cases model0 with
    | none =>
      simp [resolveModel, thinkingCompatAdjust, hflash, hc25]
    | some s =>
      simp only [emptyModelStr] at hm
      simp [resolveModel, thinkingCompatAdjust, hm, hflash, hc25]

/-- C10 witness: a whitespace-only model in fast mode resolves to the native
default. -/
theorem empty_model_defaults_native_witness :
    (resolveModel (some "   ") TMode.fast none).model = "gemini-2.5-flash" ∧
    (resolveModel (some "   ") TMode.fast none).isNative = true :=
  empty_model_defaults_native (some "   ") TMode.fast none (by decide) (Or.inl rfl)

/-- C7: any thrown failure of the primary search provider (timeout, non-2xx
status, malformed payload) makes runWebSearch call the fallback provider and
return its (never-throwing) result; when the fallback also fails, the
overall result is the empty list rather than an exception. -/
theorem search_primary_failure_fallback (net : SearchNetEnv)
    (h : runBubbleSearchE net = none) :
    (runWebSearchT net).2 = true ∧
    runWebSearch net = runDuckDuckGoFallback net ∧
    (fallbackFailed net = true → runWebSearch net = []) := by
  refine ⟨?_, ?_, ?_⟩
  · simp [runWebSearchT, h]
  · simp [runWebSearch, runWebSearchT, h]
  · intro hf
    simp only [runWebSearch, runWebSearchT, h]
    cases hfb : net.fallback with
    | failure => simp [runDuckDuckGoFallback, runDuckDuckGoFallbackBody, hfb]
    | response r =>
      simp only [fallbackFailed, hfb] at hf
      by_cases hok : r.ok
      · have hpl : (r.payload).isNone = true := by
          rcases Bool.or_eq_true_iff.mp hf with h1 | h1
          · rw [hok] at h1; simp at h1
          · exact h1
        cases hpay : r.payload with
        | some d => rw [hpay] at hpl; simp at hpl
        | none => simp [runDuckDuckGoFallback, runDuckDuckGoFallbackBody, hfb, hok, hpay]
      · simp [runDuckDuckGoFallback, runDuckDuckGoFallbackBody, hfb, hok]

/-- C7 witness: with both providers failing, the fallback is called and the
result is the empty list. -/
theorem search_primary_failure_fallback_witness :
    (runWebSearchT netBothFail).2 = true ∧ runWebSearch netBothFail = [] :=
  have h := search_primary_failure_fallback netBothFail rfl
  ⟨h.1, h.2.2 rfl⟩

/-- C8 counterexample: a send that streams one chunk at t=1000ms and then
never completes. The first chunk clears the safety timer (line 777), so no
forced cancellation or timeout error ever happens even though the provider
stack never completes — the claim that the timeout fires whenever the stack
never completes is false. -/
theorem safety_timeout_claim_false :
    hasSettle [SendEv.chunk 1000] = false ∧
    (runSendGuard [SendEv.chunk 1000]).timedOut = false ∧
    (runSendGuard [SendEv.chunk 1000]).aborted = false := by
  decide

/-- C8 amended: the guard installs a 300000ms (five-minute) safety timeout
that forcibly cancels the request and reports a timeout error whenever no
streamed chunk arrives, the provider stack does not complete, and the user
does not stop generation before the deadline; the timer is cleared by the
first streamed chunk, so a stack that streams a delta and then hangs is not
cancelled. -/
theorem safety_timeout_fires (evs : List SendEv)
    (h : ∀ e ∈ evs, safetyTimeoutDelayMs ≤ sendEvTime e) :
    (runSendGuard evs).timedOut = true ∧ (runSendGuard evs).aborted = true ∧
    safetyTimeoutDelayMs = 300000 := by
  have hfilter : evs.filter (fun e => sendEvTime e < safetyTimeoutDelayMs) = [] := by
    rw [List.filter_eq_nil_iff]
    intro e he
    have := h e he
    simp only [decide_eq_true_eq]
    omega
  refine ⟨?_, ?_, rfl⟩ <;>
    simp [runSendGuard, hfilter, guardInit, safetyTimerFire]

/-- C8 witness: a send with no guard event before the deadline times out
with a forced cancellation. -/
theorem safety_timeout_fires_witness :
    (runSendGuard []).timedOut = true ∧ (runSendGuard []).aborted = true :=
  have h := safety_timeout_fires [] (by intro e he; cases he)
  ⟨h.1, h.2.1⟩

/-! ## Trace bookkeeping lemmas -/

/-- Core of the C9 rule, shared by several proofs: the re-check with the
tag flag set always accepts. -/
theorem shouldUse_tag_set (msg : String) (m : Bool) :
    shouldUseExternalSearch msg m true = true := by
  simp [shouldUseExternalSearch]

@[simp]

theorem genCallCount_append (a b : List AgentEv) :
    genCallCount (a ++ b) = genCallCount a + genCallCount b := by
  simp [genCallCount, List.filter_append]

@[simp]

theorem genCallCount_nil : genCallCount [] = 0 := rfl

@[simp]

theorem genCallCount_gen (c : Nat) : genCallCount [AgentEv.genCall c] = 1 := rfl

@[simp]

theorem genCallCount_delta (c : Nat) (t : String) : genCallCount [AgentEv.delta c t] = 0 := rfl

@[simp]

theorem genCallCount_search (c : Nat) (q : String) :
    genCallCount [AgentEv.searchCall c q] = 0 := rfl

@[simp]

theorem genCallCount_canvas (c : Nat) (p : String) :
    genCallCount [AgentEv.canvasCall c p] = 0 := rfl

@[simp]

theorem genCallCount_cons_gen (c : Nat) (evs : List AgentEv) :
    genCallCount (AgentEv.genCall c :: evs) = genCallCount evs + 1 := by
  simp [genCallCount, List.filter_cons]

@[simp]

theorem genCallCount_cons_delta (c : Nat) (t : String) (evs : List AgentEv) :
    genCallCount (AgentEv.delta c t :: evs) = genCallCount evs := by
  simp [genCallCount, List.filter_cons]

@[simp]

theorem genCallCount_cons_search (c : Nat) (q : String) (evs : List AgentEv) :
    genCallCount (AgentEv.searchCall c q :: evs) = genCallCount evs := by
  simp [genCallCount, List.filter_cons]

@[simp]

theorem genCallCount_cons_canvas (c : Nat) (p : String) (evs : List AgentEv) :
    genCallCount (AgentEv.canvasCall c p :: evs) = genCallCount evs := by
  simp [genCallCount, List.filter_cons]

/-- Streaming delivers deltas only: the loop counter, the fallback context
and the number of provider calls are untouched. -/
theorem streamRun_preserves (abortAt : Option Nat) (chunks : List String) (g : String)
    (st : LoopState) :
    (streamRun abortAt chunks g st).st.loopCount = st.loopCount ∧
    (streamRun abortAt chunks g st).st.fallbackCtx = st.fallbackCtx ∧
    genCallCount (streamRun abortAt chunks g st).st.events = genCallCount st.events := by
  induction chunks generalizing g st with
  | nil => exact ⟨rfl, rfl, rfl⟩
  | cons c cs ih =>
    simp only [streamRun]
    by_cases h1 : signalAborted abortAt st.clock
    · simp [h1]
    · by_cases h2 : c = ""
      · simp only [h1, h2, Bool.false_eq_true, ite_false, ite_true]
        exact ih g st
      · simp only [h1, h2, Bool.false_eq_true, ite_false]
        by_cases h3 : canvasStop (g ++ c)
        · simp [h3]
        · simp only [h3, Bool.false_eq_true, ite_false]
          refine ⟨?_, ?_, ?_⟩
          · rw [(ih (g ++ c) _).1]
          · rw [(ih (g ++ c) _).2.1]
          · rw [(ih (g ++ c) _).2.2]
            simp

/-- The tag rules preserve the loop counter and add no provider call. -/
theorem runTagPhase_spec (env : LoopEnv) (st : LoopState) (g : String) (n : Nat) :
    (runTagPhase env st g n).state.loopCount = st.loopCount ∧
    genCallCount (runTagPhase env st g n).state.events = genCallCount st.events := by
  unfold runTagPhase
  by_cases h1 : captureNonempty (firstTagMatch "<DEEP>" "</DEEP>" g) = true
  · simp [h1, IterStep.state]
  · simp only [h1, Bool.false_eq_true, ite_false]
    by_cases h2 : n = 1 ∧ st.fallbackCtx = ""
    · simp [h2, IterStep.state]
    · simp only [h2, ite_false]
      by_cases h3 : captureNonempty (firstTagMatch "<IMAGE>" "</IMAGE>" g) = true
      · simp [h3, IterStep.state]
      · simp only [h3, Bool.false_eq_true, ite_false]
        by_cases h4 : captureNonempty (firstTagMatch "<PROJECT>" "</PROJECT>" g) = true
        · simp [h4, IterStep.state]
        · simp only [h4, Bool.false_eq_true, ite_false]
          by_cases h5 : captureNonempty (canvasMatchOf g) = true
          · simp [h5, IterStep.state]
          · simp only [h5, Bool.false_eq_true, ite_false]
            by_cases h6 : captureNonempty (firstTagMatch "<STUDY>" "</STUDY>" g) = true
            · simp [h6, IterStep.state]
            · simp only [h6, Bool.false_eq_true, ite_false]
              by_cases h7 : strTrim st.finalText = "" ∧ st.fallbackCtx ≠ ""
              · simp [h7, IterStep.state]
              · simp [h7, IterStep.state]

/-- Reactive search escalation preserves the loop counter and adds no
provider call. -/
theorem runIterTags_spec (env : LoopEnv) (req : AgentReq) (st : LoopState) (g : String)
    (caps : List String) :
    (runIterTags env req st g caps).state.loopCount = st.loopCount ∧
    genCallCount (runIterTags env req st g caps).state.events = genCallCount st.events := by
  unfold runIterTags
  cases caps with
  | nil => exact runTagPhase_spec env st g _
  | cons c0 cs0 =>
    simp only []
    cases hq : List.filter (fun q => decide (q ≠ "")) (List.map strTrim (c0 :: cs0)) with
    | nil =>
      simp only [hq]
      exact runTagPhase_spec env st g _
    | cons q qs =>
      simp only [hq]
      by_cases hs : shouldUseExternalSearch q req.modelSupportsSearch true = true
      · simp only [hs, ite_true]
        cases hr : env.searchFn q with
        | nil => simp [hr, IterStep.state]
        | cons r rs => simp [hr, IterStep.state]
      · simp only [hs, Bool.false_eq_true, ite_false]
        exact runTagPhase_spec env st g _

/-- One iteration performs exactly one provider call and does not touch the
loop counter it was entered with. -/
theorem runIter_spec (env : LoopEnv) (req : AgentReq) (st : LoopState) (idx : Nat) :
    (runIter env req st idx).state.loopCount = st.loopCount ∧
    genCallCount (runIter env req st idx).state.events = genCallCount st.events + 1 := by
  cases hg : env.gen idx with
  | none =>
    simp only [runIter, hg]
    simp [IterStep.state, pushGenEv]
  | some chunks =>
    simp only [runIter, hg]
    have hs := streamRun_preserves env.abortAt chunks "" (pushGenEv st)
    have ht := runIterTags_spec env req (streamRun env.abortAt chunks "" (pushGenEv st)).st
      (streamRun env.abortAt chunks "" (pushGenEv st)).generated
      (tagMatchAll "<SEARCH>" "</SEARCH>" (streamRun env.abortAt chunks "" (pushGenEv st)).generated)
    constructor
    · rw [ht.1, hs.1]
      rfl
    · rw [ht.2, hs.2.2]
      simp [pushGenEv]

/-- The loop runs at most `fuel` more iterations, incrementing the counter
by exactly one per iteration, with exactly one provider call each. -/
theorem loopGo_spec (env : LoopEnv) (req : AgentReq) :
    ∀ (fuel : Nat) (st : LoopState) (idx : Nat),
    ∃ k, k ≤ fuel ∧ (loopGo env req fuel st idx).1.loopCount = st.loopCount + k ∧
      genCallCount (loopGo env req fuel st idx).1.events = genCallCount st.events + k := by
  intro fuel
  induction fuel with
  | zero => intro st idx; exact ⟨0, Nat.le_refl 0, rfl, rfl⟩
  | succ f ih =>
    intro st idx
    simp only [loopGo]
    by_cases hab : signalAborted env.abortAt st.clock = true
    · exact ⟨0, Nat.zero_le _, by simp [hab], by simp [hab]⟩
    · have hiter := runIter_spec env req { st with loopCount := st.loopCount + 1 } idx
      cases hstep : runIter env req { st with loopCount := st.loopCount + 1 } idx with
      | next st2 =>
        rcases ih st2 (idx + 1) with ⟨k, hk, hlc, hgc⟩
        rw [hstep] at hiter
        simp only [IterStep.state] at hiter
        refine ⟨k + 1, by omega, ?_, ?_⟩
        · simp only [hab, Bool.false_eq_true, ite_false, hstep]
          rw [hlc, hiter.1]
          omega
        · simp only [hab, Bool.false_eq_true, ite_false, hstep]
          rw [hgc, hiter.2]
          omega
      | halt st2 out =>
        rw [hstep] at hiter
        simp only [IterStep.state] at hiter
        refine ⟨1, by omega, ?_, ?_⟩
        · simp only [hab, Bool.false_eq_true, ite_false, hstep]
          rw [hiter.1]
        · simp only [hab, Bool.false_eq_true, ite_false, hstep]
          rw [hiter.2]

/-- Pre-emptive search performs no provider call and leaves the loop
counter alone. -/
theorem preEmptiveSearch_spec (env : LoopEnv) (req : AgentReq) (st : LoopState) :
    (preEmptiveSearch env req st).loopCount = st.loopCount ∧
    genCallCount (preEmptiveSearch env req st).events = genCallCount st.events := by
  unfold preEmptiveSearch
  by_cases h1 : shouldUseExternalSearch req.prompt req.modelSupportsSearch false = true
  · simp only [h1, ite_true]
    by_cases h2 : req.adminRole = true
    · cases hr : env.searchFn req.prompt with
      | nil => simp [h2, hr]
      | cons r rs => simp [h2, hr]
    · cases hr : env.searchFn req.prompt with
      | nil => simp [h2, hr]
      | cons r rs => simp [h2, hr]
  · simp [h1]

/-- C1: for every request, the action loop performs at most MAX_LOOPS = 6
generation iterations before returning — the trace holds exactly one
provider call per iteration, the loop counter equals the number of
iterations performed, and it never exceeds 6, regardless of which action
tags the model keeps emitting. -/
theorem agent_loop_bounded (env : LoopEnv) (req : AgentReq) :
    (runAutonomousAgent env req).state.loopCount ≤ MAX_LOOPS ∧
    genCallCount (runAutonomousAgent env req).state.events =
      (runAutonomousAgent env req).state.loopCount := by
  unfold runAutonomousAgent
  have hpre := preEmptiveSearch_spec env req (initState req)
  have hlc0 : (initState req).loopCount = 0 := rfl
  have hgc0 : genCallCount (initState req).events = 0 := rfl
  by_cases hj : jsonParseOk (memoryContextStringOf req) = true
  · simp only [hj, ite_true]
    rcases loopGo_spec env req MAX_LOOPS (preEmptiveSearch env req (initState req)) 1 with
      ⟨k, hk, hlc, hgc⟩
    constructor
    · simp only [hlc, hpre.1, hlc0]
      omega
    · simp only [hgc, hlc, hpre.1, hpre.2, hlc0, hgc0]
  · simp only [hj, Bool.false_eq_true, ite_false]
    exact ⟨by simp [hpre.1, hlc0, MAX_LOOPS], by simp [hpre.2, hgc0, hpre.1, hlc0]⟩

/-- C3: when the upstream memory fetch fails, the catch of line 177 leaves
the memory context string empty, and `JSON.parse("")` at line 307 then
throws inside the outer try — the request ends in the error branch of lines
629-637 (a user-facing warning message) with zero generation calls, instead
of degrading to an empty memory context and generating normally.  The code
contradicts the graceful-degradation intent of its own lines 167-179. -/
theorem memory_fetch_failure_fails_request (env : LoopEnv) :
    (runAutonomousAgent env reqMemFail).outcome = AgentOutcome.errorReply ∧
    genCallCount (runAutonomousAgent env reqMemFail).state.events = 0 := by
  have hj : jsonParseOk (memoryContextStringOf reqMemFail) = false := by decide
  have hpre : shouldUseExternalSearch reqMemFail.prompt reqMemFail.modelSupportsSearch false
      = false := by decide
  unfold runAutonomousAgent
  constructor
  · simp [hj]
  · simp [hj, preEmptiveSearch, hpre, genCallCount, initState]

/-- C5 counterexample: the first generation's output consists of exactly
one search-tag pair, and no fallback search context exists yet — but the
run performs 2 generation calls, not 1: the reactive escalation of lines
542-566 services the nonempty query and re-invokes generation with a
synthesis prompt, so the loop does not terminate after that iteration. -/
theorem single_search_tag_claim_false :
    tagMatchAll "<SEARCH>" "</SEARCH>" "<SEARCH>latest news</SEARCH>" = ["latest news"] ∧
    genCallCount (runAutonomousAgent envC5 (reqPlain "hello")).state.events = 2 ∧
    ¬ (genCallCount (runAutonomousAgent envC5 (reqPlain "hello")).state.events = 1) := by
  refine ⟨by decide, ?_, ?_⟩
  · decide
  · decide

/-- C5 amended: when an iteration's output contains exactly one search-tag
pair whose content is empty after trimming, and no fallback search context
exists yet (and no deep tag preempts, line 579), the loop terminates after
that iteration via the break of lines 585-587, returning the accumulated
text as-is without re-invoking generation.  (With a nonempty query the
escalation of lines 542-566 re-invokes generation instead, as the
counterexample shows.) -/
theorem runIterTags_single_blank (env : LoopEnv) (req : AgentReq) (st : LoopState)
    (g : String) (q : String) (hq : strTrim q = "") :
    runIterTags env req st g [q] = runTagPhase env st g 1 := by
  unfold runIterTags
  simp [hq]

/-- Helper: with no deep tag, exactly one search pair and an empty fallback
context, the tag phase is the break of lines 585-587. -/
theorem runTagPhase_break (env : LoopEnv) (st : LoopState) (g : String)
    (hdeep : captureNonempty (firstTagMatch "<DEEP>" "</DEEP>" g) = false)
    (hfb : st.fallbackCtx = "") :
    runTagPhase env st g 1 = IterStep.halt st (AgentOutcome.reply st.finalText) := by
  unfold runTagPhase
  simp [hdeep, hfb]

/-- C5 amended: when an iteration's output contains exactly one search-tag
pair whose content is empty after trimming, and no fallback search context
exists yet (and no deep tag preempts, line 579), the loop terminates after
that iteration via the break of lines 585-587, returning the accumulated
text as-is without re-invoking generation.  (With a nonempty query the
escalation of lines 542-566 re-invokes generation instead, as the
counterexample shows.) -/
theorem single_blank_search_terminates (env : LoopEnv) (req : AgentReq) (f : Nat)
    (st : LoopState) (idx : Nat) (chunks : List String) (q : String)
    (hab : signalAborted env.abortAt st.clock = false)
    (hgen : env.gen idx = some chunks)
    (hfb : st.fallbackCtx = "")
    (hcaps : tagMatchAll "<SEARCH>" "</SEARCH>" (iterStream env st chunks).generated = [q])
    (hq : strTrim q = "")
    (hdeep : captureNonempty
      (firstTagMatch "<DEEP>" "</DEEP>" (iterStream env st chunks).generated) = false) :
    loopGo env req (f + 1) st idx =
      ((iterStream env st chunks).st,
       AgentOutcome.reply (iterStream env st chunks).st.finalText) ∧
    genCallCount (iterStream env st chunks).st.events = genCallCount st.events + 1 := by
  simp only [iterStream, incLoop] at hcaps hdeep ⊢
  have hfb2 : (streamRun env.abortAt chunks ""
      (pushGenEv { st with loopCount := st.loopCount + 1 })).st.fallbackCtx = "" := by
    rw [(streamRun_preserves env.abortAt chunks "" _).2.1]
    exact hfb
  have hbody : runIter env req { st with loopCount := st.loopCount + 1 } idx =
      IterStep.halt
        (streamRun env.abortAt chunks "" (pushGenEv { st with loopCount := st.loopCount + 1 })).st
        (AgentOutcome.reply (streamRun env.abortAt chunks ""
          (pushGenEv { st with loopCount := st.loopCount + 1 })).st.finalText) := by
    simp only [runIter, hgen]
    rw [hcaps, runIterTags_single_blank env req _ _ q hq]
    exact runTagPhase_break env _ _ hdeep hfb2
  constructor
  · simp only [loopGo, hab, Bool.false_eq_true, ite_false, hbody]
  · rw [(streamRun_preserves env.abortAt chunks "" _).2.2]
    simp [pushGenEv]

/-- C5 witness: the blank-search-tag iteration terminates the loop with the
accumulated text after a single generation call. -/
theorem single_blank_search_terminates_witness :
    (loopGo envW5 (reqPlain "hello") 6 (initState (reqPlain "hello")) 1).2
      = AgentOutcome.reply "<SEARCH>   </SEARCH>" ∧
    genCallCount (loopGo envW5 (reqPlain "hello") 6 (initState (reqPlain "hello")) 1).1.events
      = 1 := by
  have h := single_blank_search_terminates envW5 (reqPlain "hello") 5
    (initState (reqPlain "hello")) 1 ["<SEARCH>   </SEARCH>"] "   "
    rfl rfl rfl (by decide) (by decide) (by decide)
  constructor
  · rw [h.1]
    decide
  · rw [h.1]
    decide

/-! ## C6 : canvas handoff -/

/-- Helper: with no nonempty trimmed search query in the output, the
reactive escalation is skipped and control reaches the tag rules. -/
theorem runIterTags_noquery (env : LoopEnv) (req : AgentReq) (st : LoopState) (g : String)
    (caps : List String)
    (h : (caps.map strTrim).filter (fun q => q ≠ "") = []) :
    runIterTags env req st g caps = runTagPhase env st g caps.length := by
  unfold runIterTags
  cases caps with
  | nil => simp
  | cons c cs => simp only [h]

/-- Helper: when the canvas rule is the first tag rule to fire, the
accumulated text is discarded and the canvas collaborator's own result is
returned (lines 602-609). -/
theorem runTagPhase_canvas (env : LoopEnv) (st : LoopState) (g : String) (n : Nat)
    (hdeep : captureNonempty (firstTagMatch "<DEEP>" "</DEEP>" g) = false)
    (hbreak : ¬ (n = 1 ∧ st.fallbackCtx = ""))
    (himg : captureNonempty (firstTagMatch "<IMAGE>" "</IMAGE>" g) = false)
    (hproj : captureNonempty (firstTagMatch "<PROJECT>" "</PROJECT>" g) = false)
    (hcv : captureNonempty (canvasMatchOf g) = true) :
    runTagPhase env st g n =
      IterStep.halt
        { st with finalText := "", curAction := RouterAction.CANVAS,
                  curPrompt := strTrim ((canvasMatchOf g).getD ""),
                  events := st.events ++
                    [AgentEv.canvasCall st.clock (strTrim ((canvasMatchOf g).getD ""))] }
        (AgentOutcome.canvasHandoff (env.canvasFn (strTrim ((canvasMatchOf g).getD "")))) := by
  unfold runTagPhase
  simp [hdeep, hbreak, himg, hproj, hcv]

/-- C6: when a canvas tag (in any accepted spelling variant, with nonempty
content) is found in an iteration's output and no higher-priority rule
fires (no serviceable search query, no deep/image/project tag, and not the
single-search-tag break), the loop returns the canvas collaborator's own
result as-is: the accumulated text of the turn is discarded (reset to
empty), the trimmed tag content is handed off, and no further local loop
iterations occur (exactly this iteration's generation call is on the
trace). -/
theorem canvas_tag_handoff (env : LoopEnv) (req : AgentReq) (f : Nat) (st : LoopState)
    (idx : Nat) (chunks : List String)
    (hab : signalAborted env.abortAt st.clock = false)
    (hgen : env.gen idx = some chunks)
    (hnoq : ((tagMatchAll "<SEARCH>" "</SEARCH>" (iterStream env st chunks).generated).map
      strTrim).filter (fun q => q ≠ "") = [])
    (hbreak : ¬ ((tagMatchAll "<SEARCH>" "</SEARCH>"
      (iterStream env st chunks).generated).length = 1 ∧ st.fallbackCtx = ""))
    (hdeep : captureNonempty
      (firstTagMatch "<DEEP>" "</DEEP>" (iterStream env st chunks).generated) = false)
    (himg : captureNonempty
      (firstTagMatch "<IMAGE>" "</IMAGE>" (iterStream env st chunks).generated) = false)
    (hproj : captureNonempty
      (firstTagMatch "<PROJECT>" "</PROJECT>" (iterStream env st chunks).generated) = false)
    (hcv : captureNonempty (canvasMatchOf (iterStream env st chunks).generated) = true) :
    (loopGo env req (f + 1) st idx).2 =
      AgentOutcome.canvasHandoff
        (env.canvasFn (strTrim ((canvasMatchOf (iterStream env st chunks).generated).getD ""))) ∧
    (loopGo env req (f + 1) st idx).1.finalText = "" ∧
    genCallCount (loopGo env req (f + 1) st idx).1.events = genCallCount st.events + 1 := by
  simp only [iterStream, incLoop] at hnoq hbreak hdeep himg hproj hcv ⊢
  have hpres := streamRun_preserves env.abortAt chunks ""
    (pushGenEv { st with loopCount := st.loopCount + 1 })
  have hbreak2 : ¬ ((tagMatchAll "<SEARCH>" "</SEARCH>"
      (streamRun env.abortAt chunks ""
        (pushGenEv { st with loopCount := st.loopCount + 1 })).generated).length = 1 ∧
      (streamRun env.abortAt chunks ""
        (pushGenEv { st with loopCount := st.loopCount + 1 })).st.fallbackCtx = "") := by
    rw [hpres.2.1]
    exact hbreak
  refine ⟨?_, ?_, ?_⟩
  · simp only [loopGo, hab, Bool.false_eq_true, ite_false, runIter, hgen]
    rw [runIterTags_noquery env req _ _ _ hnoq,
      runTagPhase_canvas env _ _ _ hdeep hbreak2 himg hproj hcv]
  · simp only [loopGo, hab, Bool.false_eq_true, ite_false, runIter, hgen]
    rw [runIterTags_noquery env req _ _ _ hnoq,
      runTagPhase_canvas env _ _ _ hdeep hbreak2 himg hproj hcv]
  · simp only [loopGo, hab, Bool.false_eq_true, ite_false, runIter, hgen]
    rw [runIterTags_noquery env req _ _ _ hnoq,
      runTagPhase_canvas env _ _ _ hdeep hbreak2 himg hproj hcv]
    simp only [pushGenEv] at hpres ⊢
    simp [hpres.2.2]

/-- C6 witness: the canvas iteration discards the accumulated text and
returns the collaborator's own result. -/
theorem canvas_tag_handoff_witness :
    (loopGo envW6 (reqPlain "hello") 6 (initState (reqPlain "hello")) 1).2
      = AgentOutcome.canvasHandoff "CANVAS RESULT: build a todo app" ∧
    (loopGo envW6 (reqPlain "hello") 6 (initState (reqPlain "hello")) 1).1.finalText = "" := by
  have h := canvas_tag_handoff envW6 (reqPlain "hello") 5 (initState (reqPlain "hello")) 1
    ["Draft text<CANVAS>build a todo app</CANVAS>"]
    rfl rfl (by decide) (by decide) (by decide) (by decide) (by decide) (by decide)
  constructor
  · rw [h.1]
    decide
  · exact h.2.1

/-- C2 counterexample: with the signal fired right after the first streamed
delta (the delta clock reaches the abort threshold 1), the run still issues
one web-search call at clock 1 — at or after the signal — because the tag
handling of lines 542-566 runs on the already-streamed text after the
streaming loop broke on the aborted signal.  Cancellation is therefore not
terminal for search calls, refuting the claim as stated. -/
theorem cancellation_terminal_claim_false :
    searchCallsAtOrAfter 1 (runAutonomousAgent envC2 (reqPlain "hi")).state.events = 1 ∧
    (runAutonomousAgent envC2 (reqPlain "hi")).outcome
      = AgentOutcome.reply "<SEARCH>latest news</SEARCH>" := by
  constructor
  · decide
  · decide

@[simp]

theorem string_empty_append (s : String) : "" ++ s = s := by
  cases s
  rfl

@[simp]

theorem deltaTexts_append (a b : List AgentEv) :
    deltaTexts (a ++ b) = deltaTexts a ++ deltaTexts b := by
  simp [deltaTexts, List.filterMap_append]

@[simp]

theorem deltaTexts_nil : deltaTexts [] = [] := rfl

@[simp]

theorem deltaTexts_gen (c : Nat) : deltaTexts [AgentEv.genCall c] = [] := rfl

@[simp]

theorem deltaTexts_delta (c : Nat) (t : String) : deltaTexts [AgentEv.delta c t] = [t] := rfl

@[simp]

theorem deltaTexts_search (c : Nat) (q : String) :
    deltaTexts [AgentEv.searchCall c q] = [] := rfl

@[simp]

theorem deltaTexts_canvas (c : Nat) (p : String) :
    deltaTexts [AgentEv.canvasCall c p] = [] := rfl

@[simp]

theorem deltaTexts_cons_gen (c : Nat) (evs : List AgentEv) :
    deltaTexts (AgentEv.genCall c :: evs) = deltaTexts evs := by
  simp [deltaTexts, List.filterMap_cons]

@[simp]

theorem deltaTexts_cons_delta (c : Nat) (t : String) (evs : List AgentEv) :
    deltaTexts (AgentEv.delta c t :: evs) = t :: deltaTexts evs := by
  simp [deltaTexts, List.filterMap_cons]

@[simp]

theorem deltaTexts_cons_search (c : Nat) (q : String) (evs : List AgentEv) :
    deltaTexts (AgentEv.searchCall c q :: evs) = deltaTexts evs := by
  simp [deltaTexts, List.filterMap_cons]

@[simp]

theorem deltaTexts_cons_canvas (c : Nat) (p : String) (evs : List AgentEv) :
    deltaTexts (AgentEv.canvasCall c p :: evs) = deltaTexts evs := by
  simp [deltaTexts, List.filterMap_cons]

/-- With the abort threshold at 1 and the clock at 0, streaming delivers
exactly the first nonempty chunk: its delivery advances the clock to the
threshold, and the per-chunk abort check of line 456 drops everything
after it. -/
theorem streamRun_abort_one (chunks : List String) (g : String) (st : LoopState)
    (hclock : st.clock = 0)
    (hne : chunks.any (fun c => !(c == "")) = true) :
    streamRun (some 1) chunks g st =
      ⟨g ++ firstNonempty chunks,
       { st with finalText := st.finalText ++ firstNonempty chunks,
                 events := st.events ++ [AgentEv.delta 0 (firstNonempty chunks)],
                 clock := 1 }⟩ := by
  induction chunks generalizing g st with
  | nil => simp at hne
  | cons c cs ih =>
    have hab0 : signalAborted (some 1) st.clock = false := by rw [hclock]; rfl
    by_cases hc : c = ""
    · subst hc
      simp only [streamRun, hab0, Bool.false_eq_true, ite_false, ite_true]
      have hne' : cs.any (fun x => !(x == "")) = true := by simpa using hne
      rw [ih g st hclock hne']
      simp [firstNonempty]
    · simp only [streamRun, hab0, Bool.false_eq_true, ite_false, hc]
      by_cases h3 : canvasStop (g ++ c)
      · simp only [h3, ite_true]
        rw [hclock]
        simp [firstNonempty, hc]
      · simp only [h3, Bool.false_eq_true, ite_false]
        have hab1 : signalAborted (some 1) (st.clock + 1) = true := by rw [hclock]; rfl
        cases cs with
        | nil =>
          simp only [streamRun]
          rw [hclock]
          simp [firstNonempty, hc]
        | cons d ds =>
          simp only [streamRun, hab1, ite_true]
          rw [hclock]
          simp [firstNonempty, hc]

/-- Once the signal is aborted, the loop head check of line 392 returns the
accumulated text immediately, whatever fuel remains. -/
theorem loopGo_abort_now (env : LoopEnv) (req : AgentReq) (fuel : Nat) (st : LoopState)
    (idx : Nat) (h : signalAborted env.abortAt st.clock = true) :
    loopGo env req fuel st idx = (st, AgentOutcome.reply st.finalText) := by
  cases fuel with
  | zero => rfl
  | succ f => simp [loopGo, h]

/-- Classification of an iteration's non-canvas tag handling: either the
loop continues with an unchanged clock, text and delta/provider trace, or
it halts returning the accumulated text unchanged. -/
theorem runIterTags_cases (env : LoopEnv) (req : AgentReq) (st : LoopState) (g : String)
    (caps : List String)
    (hfb : st.fallbackCtx = "")
    (hcv : captureNonempty (canvasMatchOf g) = false) :
    (∃ st2, runIterTags env req st g caps = IterStep.next st2 ∧
       st2.clock = st.clock ∧ st2.finalText = st.finalText ∧
       genCallCount st2.events = genCallCount st.events ∧
       deltaTexts st2.events = deltaTexts st.events) ∨
    runIterTags env req st g caps = IterStep.halt st (AgentOutcome.reply st.finalText) := by
  have htag : ∀ n : Nat,
      (∃ st2, runTagPhase env st g n = IterStep.next st2 ∧
        st2.clock = st.clock ∧ st2.finalText = st.finalText ∧
        genCallCount st2.events = genCallCount st.events ∧
        deltaTexts st2.events = deltaTexts st.events) ∨
      runTagPhase env st g n = IterStep.halt st (AgentOutcome.reply st.finalText) := by
    intro n
    unfold runTagPhase
    by_cases h1 : captureNonempty (firstTagMatch "<DEEP>" "</DEEP>" g) = true
    · left
      refine ⟨{ st with curAction := RouterAction.DEEP_SEARCH,
                        curPrompt := (firstTagMatch "<DEEP>" "</DEEP>" g).getD "" },
        ?_, rfl, rfl, rfl, rfl⟩
      rw [if_pos h1]
    · simp only [h1, Bool.false_eq_true, ite_false]
      by_cases h2 : n = 1 ∧ st.fallbackCtx = ""
      · right
        rw [if_pos h2]
      · simp only [if_neg h2]
        by_cases h3 : captureNonempty (firstTagMatch "<IMAGE>" "</IMAGE>" g) = true
        · left
          refine ⟨{ st with curAction := RouterAction.IMAGE,
                            curPrompt := (firstTagMatch "<IMAGE>" "</IMAGE>" g).getD "",
                            routingParams := some ((firstTagMatch "<IMAGE>" "</IMAGE>" g).getD "") },
            ?_, rfl, rfl, rfl, rfl⟩
          rw [if_pos h3]
        · simp only [h3, Bool.false_eq_true, ite_false]
          by_cases h4 : captureNonempty (firstTagMatch "<PROJECT>" "</PROJECT>" g) = true
          · left
            refine ⟨{ st with curAction := RouterAction.PROJECT,
                              curPrompt := (firstTagMatch "<PROJECT>" "</PROJECT>" g).getD "" },
              ?_, rfl, rfl, rfl, rfl⟩
            rw [if_pos h4]
          · simp only [h4, Bool.false_eq_true, ite_false, hcv, ite_false]
            by_cases h6 : captureNonempty (firstTagMatch "<STUDY>" "</STUDY>" g) = true
            · left
              refine ⟨{ st with curAction := RouterAction.STUDY,
                                curPrompt := (firstTagMatch "<STUDY>" "</STUDY>" g).getD "" },
                ?_, rfl, rfl, rfl, rfl⟩
              rw [if_pos h6]
            · simp only [h6, Bool.false_eq_true, ite_false]
              have h7 : ¬ (strTrim st.finalText = "" ∧ st.fallbackCtx ≠ "") := by
                intro hcontra
                exact hcontra.2 hfb
              right
              rw [if_neg h7]
  unfold runIterTags
  cases caps with
  | nil => exact htag 0
  | cons c cs =>
    simp only []
    cases hq : List.filter (fun q => decide (q ≠ "")) (List.map strTrim (c :: cs)) with
    | nil =>
      simp only [hq]
      exact htag _
    | cons q qs =>
      simp only [hq]
      by_cases hs : shouldUseExternalSearch q req.modelSupportsSearch true = true
      · simp only [hs, ite_true]
        cases hr : env.searchFn q with
        | nil =>
          exact Or.inl ⟨_, rfl, rfl, rfl, by simp, by simp⟩
        | cons r rs =>
          exact Or.inl ⟨_, rfl, rfl, rfl, by simp, by simp⟩
      · simp only [hs, Bool.false_eq_true, ite_false]
        exact htag _

/-- Inversion for a continuing iteration (no canvas handoff): the clock,
text and delta/provider trace are unchanged. -/
theorem runIterTags_next_inv (env : LoopEnv) (req : AgentReq) (st : LoopState) (g : String)
    (caps : List String) (st2 : LoopState)
    (hfb : st.fallbackCtx = "")
    (hcv : captureNonempty (canvasMatchOf g) = false)
    (h : runIterTags env req st g caps = IterStep.next st2) :
    st2.clock = st.clock ∧ st2.finalText = st.finalText ∧
    genCallCount st2.events = genCallCount st.events ∧
    deltaTexts st2.events = deltaTexts st.events := by
  rcases runIterTags_cases env req st g caps hfb hcv with ⟨st3, heq, hc, hf, hg, hd⟩ | heq
  · rw [h] at heq
    injection heq with h2
    subst h2
    exact ⟨hc, hf, hg, hd⟩
  · rw [h] at heq
    exact IterStep.noConfusion heq

/-- Inversion for a halting iteration (no canvas handoff): the state is
returned unchanged with the accumulated text as a normal reply. -/
theorem runIterTags_halt_inv (env : LoopEnv) (req : AgentReq) (st : LoopState) (g : String)
    (caps : List String) (st2 : LoopState) (out : AgentOutcome)
    (hfb : st.fallbackCtx = "")
    (hcv : captureNonempty (canvasMatchOf g) = false)
    (h : runIterTags env req st g caps = IterStep.halt st2 out) :
    st2 = st ∧ out = AgentOutcome.reply st.finalText := by
  rcases runIterTags_cases env req st g caps hfb hcv with ⟨st3, heq, _, _, _, _⟩ | heq
  · rw [h] at heq
    exact IterStep.noConfusion heq
  · rw [h] at heq
    injection heq with h1 h2
    exact ⟨h1, h2⟩

/-- When the pre-emptive heuristic declines, the pre-loop search block of
lines 273-305 is a no-op. -/
theorem preEmptiveSearch_off (env : LoopEnv) (req : AgentReq) (st : LoopState)
    (h : shouldUseExternalSearch req.prompt req.modelSupportsSearch false = false) :
    preEmptiveSearch env req st = st := by
  simp [preEmptiveSearch, h]

/-- One non-aborted step of the loop (line 391-393 head plus one body). -/
theorem loopGo_succ (env : LoopEnv) (req : AgentReq) (fuel : Nat) (st : LoopState) (idx : Nat)
    (hab : signalAborted env.abortAt st.clock = false) :
    loopGo env req (fuel + 1) st idx =
      match runIter env req { st with loopCount := st.loopCount + 1 } idx with
      | IterStep.next st2 => loopGo env req fuel st2 (idx + 1)
      | IterStep.halt st2 out => (st2, out) := by
  simp [loopGo, hab]

/-- C2 amended: once the signal is aborted no further generation calls are
issued — the loop exits at its next head check — and, on the native path
with no pre-emptive search, a parseable memory context and no canvas
handoff, a signal firing right after the first streamed delta yields a
normal reply (not an error) whose text equals exactly that delta, with
exactly one generation call on the trace; however, as the counterexample
shows, a web-search call for a search tag already present in the streamed
text may still be issued after cancellation. -/
theorem cancellation_after_first_delta (env : LoopEnv) (req : AgentReq) (chunks : List String)
    (hpre : shouldUseExternalSearch req.prompt req.modelSupportsSearch false = false)
    (hmem : jsonParseOk (memoryContextStringOf req) = true)
    (hab : env.abortAt = some 1)
    (hgen : env.gen 1 = some chunks)
    (hne : chunks.any (fun c => !(c == "")) = true)
    (hcv : captureNonempty (canvasMatchOf (firstNonempty chunks)) = false) :
    (runAutonomousAgent env req).outcome = AgentOutcome.reply (firstNonempty chunks) ∧
    (runAutonomousAgent env req).state.finalText = firstNonempty chunks ∧
    genCallCount (runAutonomousAgent env req).state.events = 1 ∧
    deltaTexts (runAutonomousAgent env req).state.events = [firstNonempty chunks] := by
  unfold runAutonomousAgent
  simp only [hmem, ite_true, preEmptiveSearch_off env req _ hpre]
  rw [show MAX_LOOPS = 5 + 1 from rfl]
  have hab0 : signalAborted env.abortAt (initState req).clock = false := by rw [hab]; rfl
  rw [loopGo_succ env req 5 (initState req) 1 hab0]
  simp only [runIter, hgen]
  rw [hab]
  rw [streamRun_abort_one chunks "" _ rfl hne]
  simp only [string_empty_append]
  split
  · rename_i st2 heq
    have hinv := runIterTags_next_inv _ _ _ _ _ _ (by rfl) hcv heq
    have hclk2 : signalAborted env.abortAt st2.clock = true := by
      rw [hab, hinv.1]
      rfl
    rw [loopGo_abort_now env req _ st2 _ hclk2]
    refine ⟨?_, ?_, ?_, ?_⟩
    · show AgentOutcome.reply st2.finalText = _
      rw [hinv.2.1]
      simp [pushGenEv, initState]
    · show st2.finalText = _
      rw [hinv.2.1]
      simp [pushGenEv, initState]
    · show genCallCount st2.events = 1
      rw [hinv.2.2.1]
      simp [pushGenEv, initState]
    · show deltaTexts st2.events = [firstNonempty chunks]
      rw [hinv.2.2.2]
      simp [pushGenEv, initState]
  · rename_i st2 out heq
    have hinv := runIterTags_halt_inv _ _ _ _ _ _ _ (by rfl) hcv heq
    rcases hinv with ⟨h1, h2⟩
    subst h1
    subst h2
    refine ⟨?_, ?_, ?_, ?_⟩ <;> simp [pushGenEv, initState]

/-- C2 witness: cancelling right after the first delta returns exactly that
delta as a normal reply after one generation call. -/
theorem cancellation_after_first_delta_witness :
    (runAutonomousAgent envW2 (reqPlain "ok then")).outcome
      = AgentOutcome.reply "Hello there" ∧
    genCallCount (runAutonomousAgent envW2 (reqPlain "ok then")).state.events = 1 := by
  have h := cancellation_after_first_delta envW2 (reqPlain "ok then") ["Hello there"]
    (by decide) (by decide) rfl rfl (by decide) (by decide)
  constructor
  · rw [h.1]
    decide
  · exact h.2.2.1
